import Mathlib

/-!
Verification of `src/checkPolinoms.py` (repository Cryptography_Rijndael).

The program consists of one function `dec_to_hex_list` that maps a list of
integers to display strings, a hardcoded 30-element list `decimal_numbers`,
and a driver loop printing each resulting line in order.

Python's `%` on integers is floor-style modulo; for the positive modulus 256
it coincides with Lean's `Int.emod` (the `%` of `Int`), since both yield the
unique representative in `[0, 256)`.  The embedding below therefore uses
Lean's `%` for the source's `int(num) % 256`, and a theorem records the
agreement with `Int.fmod` (floor modulo).
-/

/-- Uppercase hexadecimal digit character for `d < 16`
(the digits produced by Python's `X` format spec): `0`-`9` then `A`-`F`. -/
def hexDigit (d : Nat) : Char :=
  if d < 10 then Char.ofNat (48 + d) else Char.ofNat (55 + d)

/-- Hex digits of `n`, least significant first, bounded by `fuel` recursion
steps.  `fuel = n + 1` always suffices, since `n` has at most `n + 1` digits. -/
def hexDigitsRevFuel : Nat → Nat → List Char
  | 0, _ => []
  | fuel + 1, n =>
    if n < 16 then [hexDigit n]
    else hexDigit (n % 16) :: hexDigitsRevFuel fuel (n / 16)

/-- Python `f"\x7bn:X\x7d"`: uppercase hexadecimal rendering of `n`,
no padding, `"0"` for zero. -/
def fmtX (n : Nat) : String :=
  String.mk (hexDigitsRevFuel (n + 1) n).reverse

/-- Python `f"\x7bn:02X\x7d"`: uppercase hexadecimal rendering of `n`,
zero-padded on the left to a minimum width of 2. -/
def fmt02X (n : Nat) : String :=
  let ds := (hexDigitsRevFuel (n + 1) n).reverse
  String.mk (List.replicate (2 - ds.length) '0' ++ ds)

/-- Python `str.zfill(w)`: pad with leading `'0'` to width `w`.
(The sign-aware case of `zfill` is irrelevant here: in the source it is only
applied to strings beginning with `'0'`.) -/
def zfill (w : Nat) (s : String) : String :=
  String.mk (List.replicate (w - s.data.length) '0' ++ s.data)

/-- The body of the loop of `dec_to_hex_list` after the normalization
`n = int(num) % 256` (src/checkPolinoms.py lines 9-20): the negative guard,
the dead store of line 13, and the two-digit / plain hex branch. -/
def format_normalized (n : Int) : String :=
  if n < 0 then
    toString n ++ " → ОШИБКА: отрицательное"
  else
    -- line 13 (immediately overwritten): hex_str = f"0x\x7bn:X\x7d".zfill(4)
    let hex_str := zfill 4 ("0x" ++ fmtX n.toNat)
    let hex_str := if n ≤ 255 then "0x" ++ fmt02X n.toNat else "0x" ++ fmtX n.toNat
    toString n ++ " → " ++ hex_str

/-- One loop iteration of `dec_to_hex_list` for element `num`
(src/checkPolinoms.py lines 7-20): normalize modulo 256, then format. -/
def dec_to_hex_one (num : Int) : String :=
  format_normalized (num % 256)

/-- `dec_to_hex_list` (src/checkPolinoms.py lines 1-22): the loop appends one
string per input element, in order, so the result is the elementwise map. -/
def dec_to_hex_list (numbers : List Int) : List String :=
  numbers.map dec_to_hex_one

/-- The hardcoded literal list (src/checkPolinoms.py lines 26-28). -/
def decimal_numbers : List Int :=
  [283, 285, 299, 301, 313, 319, 333, 351, 355, 357, 361, 369,
   375, 379, 391, 395, 397, 415, 419, 425, 433, 445, 451, 463, 471, 477,
   487, 499, 501, 505]

/-- The lines printed by the driver loop (src/checkPolinoms.py lines 31-32),
in print order: one line per element of `dec_to_hex_list decimal_numbers`. -/
def program_output_lines : List String :=
  dec_to_hex_list decimal_numbers

/-- Line 13 of the source removed: the same formatting step without the dead
store `hex_str = f"0x\x7bn:X\x7d".zfill(4)`. -/
def format_normalized_noDeadStore (n : Int) : String :=
  if n < 0 then
    toString n ++ " → ОШИБКА: отрицательное"
  else
    let hex_str := if n ≤ 255 then "0x" ++ fmt02X n.toNat else "0x" ++ fmtX n.toNat
    toString n ++ " → " ++ hex_str

/-- `dec_to_hex_list` with line 13 removed from the loop body. -/
def dec_to_hex_list_noDeadStore (numbers : List Int) : List String :=
  numbers.map (fun num => format_normalized_noDeadStore (num % 256))

/-! ### Helper lemmas -/

theorem emod256_nonneg (v : Int) : 0 ≤ v % 256 :=
  Int.emod_nonneg v (by decide)

theorem emod256_lt (v : Int) : v % 256 < 256 :=
  Int.emod_lt_of_pos v (by decide)

theorem format_normalized_of_range (n : Int) (h0 : 0 ≤ n) (h255 : n ≤ 255) :
    format_normalized n = toString n ++ " → " ++ ("0x" ++ fmt02X n.toNat) := by
  simp only [format_normalized, if_neg (by omega : ¬ n < 0), if_pos h255]

set_option maxRecDepth 4096 in
theorem fmt02X_length_of_lt : ∀ n : Nat, n < 256 → (fmt02X n).length = 2 := by
  decide

theorem dec_to_hex_one_eq (v : Int) :
    dec_to_hex_one v =
      toString (v % 256) ++ " → " ++ ("0x" ++ fmt02X (v % 256).toNat) :=
  format_normalized_of_range (v % 256) (emod256_nonneg v) (by
    have := emod256_lt v; omega)

/-! ### Claim theorems -/

/-- C1: for every integer `v`, `dec_to_hex_list [v]` returns exactly one
string, the decimal portion before the arrow is `v % 256`, that value agrees
with floor-modulo (`Int.fmod`), and it always lies in `[0, 255]`. -/
theorem C1_singleton_mod_range (v : Int) :
    (dec_to_hex_list [v]).length = 1 ∧
    (∃ hexpart, dec_to_hex_list [v] = [toString (v % 256) ++ " → " ++ hexpart]) ∧
    0 ≤ v % 256 ∧ v % 256 ≤ 255 ∧ v % 256 = Int.fmod v 256 := by
  refine ⟨rfl, ⟨"0x" ++ fmt02X (v % 256).toNat, ?_⟩, emod256_nonneg v, ?_, ?_⟩
  · show [dec_to_hex_one v] = _
    rw [dec_to_hex_one_eq]
  · have := emod256_lt v; omega
  · exact (Int.fmod_eq_emod v (by decide)).symm

/-- C2: every output string has the form `toString n ++ " → 0x" ++ HEX` with
`n = v % 256` and `HEX` the uppercase two-digit zero-padded hexadecimal of
`n` (the source's `02X` format); in particular the four formatting examples
`5 → 0x05`, `27 → 0x1B`, `0 → 0x00` and `255 → 0xFF` hold. -/
theorem C2_two_digit_format :
    (∀ v : Int,
      dec_to_hex_list [v] =
          [toString (v % 256) ++ " → " ++ ("0x" ++ fmt02X (v % 256).toNat)] ∧
        (fmt02X (v % 256).toNat).length = 2) ∧
    dec_to_hex_list [5] = ["5 → 0x05"] ∧
    dec_to_hex_list [27] = ["27 → 0x1B"] ∧
    dec_to_hex_list [0] = ["0 → 0x00"] ∧
    dec_to_hex_list [255] = ["255 → 0xFF"] := by
  refine ⟨fun v => ⟨?_, ?_⟩, by decide, by decide, by decide, by decide⟩
  · show [dec_to_hex_one v] = _
    rw [dec_to_hex_one_eq]
  · refine fmt02X_length_of_lt (v % 256).toNat ?_
    have h0 := emod256_nonneg v
    have h1 := emod256_lt v
    omega

/-- C3: the negative branch and the more-than-two-digits else branch are
unreachable (`v % 256` is never negative and never exceeds 255), so every
string produced by `dec_to_hex_list` has the two-digit, non-error format. -/
theorem C3_dead_branches (nums : List Int) (s : String)
    (hs : s ∈ dec_to_hex_list nums) :
    (∀ v : Int, ¬ (v % 256 < 0) ∧ v % 256 ≤ 255) ∧
    ∃ n : Nat, n ≤ 255 ∧
      s = toString (n : Int) ++ " → " ++ ("0x" ++ fmt02X n) ∧
      (fmt02X n).length = 2 := by
  constructor
  · intro v
    have h0 := emod256_nonneg v
    have h1 := emod256_lt v
    omega
  · obtain ⟨v, -, rfl⟩ := List.mem_map.mp hs
    have h0 := emod256_nonneg v
    have h1 := emod256_lt v
    refine ⟨(v % 256).toNat, by omega, ?_, ?_⟩
    · rw [dec_to_hex_one_eq, Int.toNat_of_nonneg h0]
    · exact fmt02X_length_of_lt _ (by omega)

/-- C3 witness: the output `"27 → 0x1B"` of `dec_to_hex_list [283]` has the
two-digit, non-error shape. -/
theorem C3_dead_branches_witness :
    (∀ v : Int, ¬ (v % 256 < 0) ∧ v % 256 ≤ 255) ∧
    ∃ n : Nat, n ≤ 255 ∧
      "27 → 0x1B" = toString (n : Int) ++ " → " ++ ("0x" ++ fmt02X n) ∧
      (fmt02X n).length = 2 :=
  C3_dead_branches [283] "27 → 0x1B" (by decide)

/-- C4 counterexample: for normalized value `-1` the negative branch produces
the Russian message `"-1 → ОШИБКА: отрицательное"`, not the claimed string
`"-1 → ERROR: negative"`. -/
theorem C4_error_string_counterexample :
    format_normalized (-1) = "-1 → ОШИБКА: отрицательное" ∧
    format_normalized (-1) ≠ "-1 → ERROR: negative" := by
  decide

/-- C4 (amended): for every normalized value `n` that is negative, the
formatting step produces exactly the string
`toString n ++ " → ОШИБКА: отрицательное"`
(the source's literal message, Russian for "ERROR: negative"). -/
theorem C4_negative_branch (n : Int) (h : n < 0) :
    format_normalized n = toString n ++ " → ОШИБКА: отрицательное" := by
  simp only [format_normalized, if_pos h]

/-- C4 witness: the amended negative-branch formatting at `n = -1`. -/
theorem C4_negative_branch_witness :
    format_normalized (-1) = toString (-1 : Int) ++ " → ОШИБКА: отрицательное" :=
  C4_negative_branch (-1) (by decide)

/-- C5: the output list has exactly the length of the input list and its
`i`-th entry is the conversion of the `i`-th input, preserving order. -/
theorem C5_length_order (nums : List Int) :
    (dec_to_hex_list nums).length = nums.length ∧
    ∀ i (hi : i < nums.length),
      (dec_to_hex_list nums)[i]? = some (dec_to_hex_one (nums.get ⟨i, hi⟩)) := by
  constructor
  · simp [dec_to_hex_list]
  · intro i hi
    simp [dec_to_hex_list, List.getElem?_map, List.getElem?_eq_getElem hi]

/-- C5 witness: for input `[283, 285]` the entry at index 1 is the conversion
of the element at index 1. -/
theorem C5_length_order_witness :
    (dec_to_hex_list [283, 285])[1]? =
      some (dec_to_hex_one (([283, 285] : List Int).get ⟨1, by decide⟩)) :=
  (C5_length_order [283, 285]).2 1 (by decide)

/-- C6: concrete scenarios `[283, 285]`, `[256]` and `[511]`. -/
theorem C6_concrete_scenarios :
    dec_to_hex_list [283, 285] = ["27 → 0x1B", "29 → 0x1D"] ∧
    dec_to_hex_list [256] = ["0 → 0x00"] ∧
    dec_to_hex_list [511] = ["255 → 0xFF"] := by
  decide

/-- C7: the embedded literal `decimal_numbers` has exactly 30 elements and the
driver prints exactly one line per element, in order, each line being the
corresponding string of `dec_to_hex_list decimal_numbers`. -/
theorem C7_driver_output (i : Nat) (hi : i < decimal_numbers.length) :
    decimal_numbers.length = 30 ∧
    program_output_lines = dec_to_hex_list decimal_numbers ∧
    program_output_lines.length = 30 ∧
    program_output_lines[i]? =
      some (dec_to_hex_one (decimal_numbers.get ⟨i, hi⟩)) := by
  refine ⟨by decide, rfl, by decide, ?_⟩
  simp [program_output_lines, dec_to_hex_list, List.getElem?_map,
    List.getElem?_eq_getElem hi]

/-- C7 witness: the driver facts at index 0. -/
theorem C7_driver_output_witness :
    decimal_numbers.length = 30 ∧
    program_output_lines = dec_to_hex_list decimal_numbers ∧
    program_output_lines.length = 30 ∧
    program_output_lines[0]? =
      some (dec_to_hex_one (decimal_numbers.get ⟨0, by decide⟩)) :=
  C7_driver_output 0 (by decide)

/-- C8: `dec_to_hex_list` is deterministic — it is a pure function of the
input sequence, so two calls on equal input sequences give equal outputs. -/
theorem C8_deterministic (xs ys : List Int) (h : xs = ys) :
    dec_to_hex_list xs = dec_to_hex_list ys := by
  rw [h]

/-- C8 witness: two calls on the sequence `[283, 285]` agree. -/
theorem C8_deterministic_witness :
    dec_to_hex_list [283, 285] = dec_to_hex_list [283, 285] :=
  C8_deterministic [283, 285] [283, 285] rfl

/-- C9: the dead store of line 13 never affects the output —
`dec_to_hex_list` is extensionally equal to the variant with line 13
removed, because `hex_str` is unconditionally reassigned before use. -/
theorem C9_dead_store_irrelevant (nums : List Int) :
    dec_to_hex_list nums = dec_to_hex_list_noDeadStore nums :=
  rfl

/-- C10: every element of `decimal_numbers` lies in `[256, 511]` with
`v % 256 = v - 256`, and the program's full output is exactly the 30
two-hex-digit lines from `"27 → 0x1B"` to `"249 → 0xF9"`. -/
theorem C10_full_output :
    (∀ v ∈ decimal_numbers, 256 ≤ v ∧ v ≤ 511 ∧ v % 256 = v - 256) ∧
    program_output_lines =
      ["27 → 0x1B", "29 → 0x1D", "43 → 0x2B", "45 → 0x2D", "57 → 0x39",
       "63 → 0x3F", "77 → 0x4D", "95 → 0x5F", "99 → 0x63", "101 → 0x65",
       "105 → 0x69", "113 → 0x71", "119 → 0x77", "123 → 0x7B", "135 → 0x87",
       "139 → 0x8B", "141 → 0x8D", "159 → 0x9F", "163 → 0xA3", "169 → 0xA9",
       "177 → 0xB1", "189 → 0xBD", "195 → 0xC3", "207 → 0xCF", "215 → 0xD7",
       "221 → 0xDD", "231 → 0xE7", "243 → 0xF3", "245 → 0xF5", "249 → 0xF9"] ∧
    program_output_lines.head? = some "27 → 0x1B" ∧
    program_output_lines.getLast? = some "249 → 0xF9" := by
  refine ⟨by decide, by decide, by decide, by decide⟩

/-- C10 witness: the element bounds and mod identity at the member `283`. -/
theorem C10_full_output_witness :
    256 ≤ (283 : Int) ∧ (283 : Int) ≤ 511 ∧ (283 : Int) % 256 = 283 - 256 :=
  C10_full_output.1 283 (by decide)
